import Mathlib

/-!
Verification of the tick driver in `src/javascript/main.js` (screeps-rs
bootstrap shim).  The driver is embedded shallowly: process-wide state
(`wasm_module`, `pause`), the host-owned stores (`Memory.creeps`,
`require.cache`) and the per-tick ambient data (`Game.cpu.bucket`,
`Game.creeps`) become explicit values, and one call of
`module.exports.loop` becomes the pure function `onTick`, which returns
the new state together with a trace of observable events (log lines,
notifications, memory deletions, cache evictions, and calls into the
externally supplied wasm module's capabilities).

The wasm module is an opaque collaborator: whether each of its
capabilities (`require` itself, `initialize_instance`, `setup`, `loop`)
returns normally or throws during a given tick is an input oracle
(`ModuleBehavior`).  Host channels (`console.log`, `Game.notify`) are
modelled as infallible, and live-unit handles in `Game.creeps` are
objects, hence truthy, so the source's `!Game.creeps[i]` test is
membership of the key.
-/

/-- `const MODULE_NAME = "screeps-rs"` from main.js. -/
def MODULE_NAME : String := "screeps-rs"

/-- A thrown JavaScript error, as observed by the catch handler: the text
`String(error)` and the text of `error.stack`. -/
structure JsError where
  text : String
  stack : String
deriving DecidableEq

/-- Per-tick oracle for the opaque wasm module: for each step of the load /
run sequence, `none` means the call returns normally, `some err` means it
throws `err`.  (`initError` is the outcome of `initialize_instance`.) -/
structure ModuleBehavior where
  requireError : Option JsError
  initError : Option JsError
  setupError : Option JsError
  loopError : Option JsError
deriving DecidableEq

/-- Host-supplied ambient data for one tick: `Game.cpu.bucket`, the keys of
`Game.creeps` (live unit identifiers), the text `JSON.stringify(Game.cpu)`,
a fresh identity for the instance `require` would produce this tick, and
the module's behavior oracle. -/
structure TickInput where
  bucket : Nat
  creeps : List String
  cpuJson : String
  freshId : Nat
  behavior : ModuleBehavior
deriving DecidableEq

/-- The driver's process-wide state plus the persistent host stores it
mutates: `wasm_module` (`none` = unset, `some id` = the loaded instance),
`pause`, the entries of `Memory.creeps` (key/value pairs in object order),
and the keys of `require.cache`. -/
structure DriverState where
  wasm_module : Option Nat
  pause : Bool
  memory : List (String × String)
  cache : List String
deriving DecidableEq

/-- Observable events of one `onTick` call, in program order. -/
inductive Event where
  | log (line : String)
  | notify (msg : String)
  | deleteMemory (key : String)
  | evictCache (name : String)
  | requireCall (id : Nat)
  | initInstanceCall (id : Nat)
  | setupCall (id : Nat)
  | loopCall (id : Nat)
deriving DecidableEq

/-- `console_error(msg)` from main.js: one `console.log` line and one
`Game.notify` message, both with the same text (each call site passes a
single argument, so `args.join(' ')` is that argument's text). -/
def console_error (msg : String) : List Event :=
  [Event.log msg, Event.notify msg]

/-- The event trace of the catch handler in main.js:
`console_error("resetting VM next tick."); console_error(error);
console_error(error.stack)`. -/
def catchEvents (err : JsError) : List Event :=
  console_error "resetting VM next tick." ++ console_error err.text ++
    console_error err.stack

/-- The catch handler: emit `catchEvents`, then `wasm_module = null;
pause = false;`. -/
def catchHandler (s : DriverState) (err : JsError) : DriverState × List Event :=
  ({ s with wasm_module := none, pause := false }, catchEvents err)

/-- The "Clean up dead creeps" loop: for every key of `Memory.creeps` that
is not a key of `Game.creeps`, delete the entry (handles are objects, so
`!Game.creeps[i]` holds exactly when the key is absent). -/
def cleanDeadCreeps (s : DriverState) (creeps : List String) :
    DriverState × List Event :=
  ({ s with memory := s.memory.filter (fun kv => creeps.contains kv.1) },
   (s.memory.filter (fun kv => !(creeps.contains kv.1))).map
     (fun kv => Event.deleteMemory kv.1))

/-- The `else` branch of the try block (no module loaded): budget gate,
cache eviction, `require`, `initialize_instance`, `setup`, `loop`, with the
catch handler taking over at the first throw.  A successful `require`
stores the fresh instance in `wasm_module` and re-caches the module (the
host's load-or-fetch cache semantics). -/
def coldStart (s : DriverState) (inp : TickInput) : DriverState × List Event :=
  if inp.bucket < 500 then
    (s, [Event.log ("we are running out of time, pausing compile!" ++ inp.cpuJson)])
  else
    let evict : List Event :=
      if s.cache.contains MODULE_NAME then [Event.evictCache MODULE_NAME] else []
    let s1 : DriverState := { s with cache := s.cache.filter (fun n => n ≠ MODULE_NAME) }
    match inp.behavior.requireError with
    | some err =>
        let r := catchHandler s1 err
        (r.1, evict ++ [Event.requireCall inp.freshId] ++ r.2)
    | none =>
        let s2 : DriverState :=
          { s1 with wasm_module := some inp.freshId, cache := MODULE_NAME :: s1.cache }
        match inp.behavior.initError with
        | some err =>
            let r := catchHandler s2 err
            (r.1, evict ++ [Event.requireCall inp.freshId,
                            Event.initInstanceCall inp.freshId] ++ r.2)
        | none =>
            match inp.behavior.setupError with
            | some err =>
                let r := catchHandler s2 err
                (r.1, evict ++ [Event.requireCall inp.freshId,
                                Event.initInstanceCall inp.freshId,
                                Event.setupCall inp.freshId] ++ r.2)
            | none =>
                match inp.behavior.loopError with
                | some err =>
                    let r := catchHandler s2 err
                    (r.1, evict ++ [Event.requireCall inp.freshId,
                                    Event.initInstanceCall inp.freshId,
                                    Event.setupCall inp.freshId,
                                    Event.loopCall inp.freshId] ++ r.2)
                | none =>
                    (s2, evict ++ [Event.requireCall inp.freshId,
                                   Event.initInstanceCall inp.freshId,
                                   Event.setupCall inp.freshId,
                                   Event.loopCall inp.freshId])

/-- The `if (wasm_module)` branch of the try block: call `loop()` on the
loaded instance `m`; the catch handler takes over if it throws. -/
def steadyState (s : DriverState) (m : Nat) (inp : TickInput) :
    DriverState × List Event :=
  match inp.behavior.loopError with
  | none => (s, [Event.loopCall m])
  | some err =>
      let r := catchHandler s err
      (r.1, [Event.loopCall m] ++ r.2)

/-- One call of `module.exports.loop` from main.js: pause short-circuit,
dead-creep cleanup, then the try/catch dispatch. -/
def onTick (s : DriverState) (inp : TickInput) : DriverState × List Event :=
  if s.pause then (s, [])
  else
    let c := cleanDeadCreeps s inp.creeps
    match c.1.wasm_module with
    | some m =>
        let r := steadyState c.1 m inp
        (r.1, c.2 ++ r.2)
    | none =>
        let r := coldStart c.1 inp
        (r.1, c.2 ++ r.2)

/-- Run a sequence of ticks from a starting state. -/
def runTicks (s : DriverState) (inps : List TickInput) : DriverState :=
  inps.foldl (fun st inp => (onTick st inp).1) s

/-- The log lines of a trace, in order. -/
def logLines (evs : List Event) : List String :=
  evs.filterMap (fun e => match e with | Event.log l => some l | _ => none)

/-- The notification messages of a trace, in order. -/
def notifications (evs : List Event) : List String :=
  evs.filterMap (fun e => match e with | Event.notify m => some m | _ => none)

/-- The cache touches and module-capability calls of a trace, in order. -/
def moduleCalls (evs : List Event) : List Event :=
  evs.filter (fun e => match e with
    | Event.evictCache _ => true
    | Event.requireCall _ => true
    | Event.initInstanceCall _ => true
    | Event.setupCall _ => true
    | Event.loopCall _ => true
    | _ => false)

/-- The error thrown inside the try block of this tick, if any, following
the source's control flow: in the loaded branch only `loop` runs; in the
cold-start branch (past the budget gate) the first failing step among
`require`, `initialize_instance`, `setup`, `loop` throws. -/
def thrownError (s : DriverState) (inp : TickInput) : Option JsError :=
  if s.pause then none
  else
    match s.wasm_module with
    | some _ => inp.behavior.loopError
    | none =>
        if inp.bucket < 500 then none
        else
          match inp.behavior.requireError with
          | some e => some e
          | none =>
              match inp.behavior.initError with
              | some e => some e
              | none =>
                  match inp.behavior.setupError with
                  | some e => some e
                  | none => inp.behavior.loopError

/-- `pat` occurs as a contiguous substring of `s`. -/
def containsStr (s pat : String) : Bool :=
  decide (pat.toList <:+: s.toList)

/-! ### Trace extractor lemmas -/

theorem logLines_append (a b : List Event) :
    logLines (a ++ b) = logLines a ++ logLines b := by
  simp [logLines]

theorem notifications_append (a b : List Event) :
    notifications (a ++ b) = notifications a ++ notifications b := by
  simp [notifications]

theorem moduleCalls_append (a b : List Event) :
    moduleCalls (a ++ b) = moduleCalls a ++ moduleCalls b := by
  simp [moduleCalls]

theorem logLines_deletes (l : List (String × String)) :
    logLines (l.map (fun kv => Event.deleteMemory kv.1)) = [] := by
  induction l with
  | nil => rfl
  | cons a t ih => simpa [logLines] using ih

theorem notifications_deletes (l : List (String × String)) :
    notifications (l.map (fun kv => Event.deleteMemory kv.1)) = [] := by
  induction l with
  | nil => rfl
  | cons a t ih => simpa [notifications] using ih

theorem moduleCalls_deletes (l : List (String × String)) :
    moduleCalls (l.map (fun kv => Event.deleteMemory kv.1)) = [] := by
  induction l with
  | nil => rfl
  | cons a t ih => simpa [moduleCalls] using ih

theorem logLines_catchEvents (err : JsError) :
    logLines (catchEvents err) = ["resetting VM next tick.", err.text, err.stack] := rfl

theorem notifications_catchEvents (err : JsError) :
    notifications (catchEvents err) = ["resetting VM next tick.", err.text, err.stack] := rfl

theorem moduleCalls_catchEvents (err : JsError) :
    moduleCalls (catchEvents err) = [] := rfl

theorem logLines_evict (c : Bool) (n : String) :
    logLines (if c then [Event.evictCache n] else []) = [] := by
  cases c <;> rfl

theorem notifications_evict (c : Bool) (n : String) :
    notifications (if c then [Event.evictCache n] else []) = [] := by
  cases c <;> rfl

/-! ### Claim C1 -/

/-- Claim C1: from an unpaused state with no loaded module and bucket at
least 500, `onTick` evicts any cached entry for the module, then calls
`require`, `initialize_instance`, `setup`, `loop` in that exact order, and
retains the fresh instance in `wasm_module` (the hypotheses on
`inp.behavior` say each step returns normally; throwing runs are the
failure-handling claims). -/
theorem C1_cold_start_sequence (s : DriverState) (inp : TickInput)
    (hp : s.pause = false) (hm : s.wasm_module = none) (hb : 500 ≤ inp.bucket)
    (h1 : inp.behavior.requireError = none) (h2 : inp.behavior.initError = none)
    (h3 : inp.behavior.setupError = none) (h4 : inp.behavior.loopError = none) :
    (onTick s inp).2 =
      (s.memory.filter (fun kv => !(inp.creeps.contains kv.1))).map
          (fun kv => Event.deleteMemory kv.1)
        ++ (if s.cache.contains MODULE_NAME then [Event.evictCache MODULE_NAME] else [])
        ++ [Event.requireCall inp.freshId, Event.initInstanceCall inp.freshId,
            Event.setupCall inp.freshId, Event.loopCall inp.freshId] ∧
    (onTick s inp).1.wasm_module = some inp.freshId := by
  have hb' : ¬ inp.bucket < 500 := not_lt.mpr hb
  constructor <;>
    simp [onTick, cleanDeadCreeps, coldStart, hp, hm, hb', h1, h2, h3, h4]

/-- Concrete cold-start scenario for the C1 witness: cached module, two
memory entries of which one creep is alive, bucket 1000. -/
def c1State : DriverState :=
  { wasm_module := none, pause := false,
    memory := [("a", "x"), ("b", "y")], cache := ["screeps-rs"] }

def okBehavior1 : ModuleBehavior :=
  { requireError := none, initError := none, setupError := none, loopError := none }

def c1Input : TickInput :=
  { bucket := 1000, creeps := ["a"], cpuJson := "cpu", freshId := 7,
    behavior := okBehavior1 }

theorem C1_cold_start_sequence_witness :
    (onTick c1State c1Input).2 =
      [Event.deleteMemory "b", Event.evictCache "screeps-rs",
       Event.requireCall 7, Event.initInstanceCall 7, Event.setupCall 7,
       Event.loopCall 7] ∧
    (onTick c1State c1Input).1.wasm_module = some 7 := by
  have h := C1_cold_start_sequence c1State c1Input rfl rfl (by decide) rfl rfl rfl rfl
  exact ⟨by rw [h.1]; rfl, h.2⟩

/-! ### The throwing case, shared analysis -/

theorem filterMap_deletes_nil (f : Event → Option String)
    (hf : ∀ k, f (Event.deleteMemory k) = none) (l : List (String × String)) :
    List.filterMap (f ∘ fun kv => Event.deleteMemory kv.1) l = [] := by
  induction l with
  | nil => rfl
  | cons a t ih => simp [List.filterMap_cons, Function.comp, hf, ih]

theorem filterMap_ite_evict_nil (f : Event → Option String)
    (hf : ∀ n, f (Event.evictCache n) = none) (c : Prop) [Decidable c]
    (n : String) :
    List.filterMap f (if c then [Event.evictCache n] else []) = [] := by
  split <;> simp [hf]

/-- If the try block of this tick throws `err` (in the sense of
`thrownError`), then after `onTick` the module reference is unset, the
pause flag is false, and the trace's log lines and notification messages
are exactly the three catch-handler messages. -/
theorem onTick_throw (s : DriverState) (inp : TickInput) (err : JsError)
    (h : thrownError s inp = some err) :
    (onTick s inp).1.wasm_module = none ∧ (onTick s inp).1.pause = false ∧
    logLines (onTick s inp).2 = ["resetting VM next tick.", err.text, err.stack] ∧
    notifications (onTick s inp).2 =
      ["resetting VM next tick.", err.text, err.stack] := by
  by_cases hp : s.pause
  · simp [thrownError, hp] at h
  · replace hp : s.pause = false := by simpa using hp
    cases hw : s.wasm_module with
    | some m =>
      have hl : inp.behavior.loopError = some err := by
        simpa [thrownError, hp, hw] using h
      simp [onTick, cleanDeadCreeps, steadyState, catchHandler, hp, hw, hl,
            logLines_append, notifications_append, logLines_deletes,
            notifications_deletes, logLines_catchEvents,
            notifications_catchEvents, logLines, notifications, catchEvents,
            console_error]
    | none =>
      by_cases hb : inp.bucket < 500
      · simp [thrownError, hp, hw, hb] at h
      · cases hr : inp.behavior.requireError with
        | some e =>
          have he : e = err := by simpa [thrownError, hp, hw, hb, hr] using h
          subst he
          simp [onTick, cleanDeadCreeps, coldStart, catchHandler, hp, hw, hb, hr,
                logLines_append, notifications_append, logLines_deletes,
                notifications_deletes, logLines_evict, notifications_evict,
                filterMap_deletes_nil, filterMap_ite_evict_nil,
                logLines_catchEvents, notifications_catchEvents, logLines,
                notifications, catchEvents, console_error]
        | none =>
          cases hi : inp.behavior.initError with
          | some e =>
            have he : e = err := by
              simpa [thrownError, hp, hw, hb, hr, hi] using h
            subst he
            simp [onTick, cleanDeadCreeps, coldStart, catchHandler, hp, hw, hb,
                  hr, hi, logLines_append, notifications_append,
                  logLines_deletes, notifications_deletes, logLines_evict,
                  notifications_evict, filterMap_deletes_nil, filterMap_ite_evict_nil, logLines_catchEvents,
                  notifications_catchEvents, logLines, notifications,
                  catchEvents, console_error]
          | none =>
            cases hs : inp.behavior.setupError with
            | some e =>
              have he : e = err := by
                simpa [thrownError, hp, hw, hb, hr, hi, hs] using h
              subst he
              simp [onTick, cleanDeadCreeps, coldStart, catchHandler, hp, hw,
                    hb, hr, hi, hs, logLines_append, notifications_append,
                    logLines_deletes, notifications_deletes, logLines_evict,
                    notifications_evict, filterMap_deletes_nil, filterMap_ite_evict_nil, logLines_catchEvents,
                    notifications_catchEvents, logLines, notifications,
                    catchEvents, console_error]
            | none =>
              have hl : inp.behavior.loopError = some err := by
                simpa [thrownError, hp, hw, hb, hr, hi, hs] using h
              simp [onTick, cleanDeadCreeps, coldStart, catchHandler, hp, hw,
                    hb, hr, hi, hs, hl, logLines_append, notifications_append,
                    logLines_deletes, notifications_deletes, logLines_evict,
                    notifications_evict, filterMap_deletes_nil, filterMap_ite_evict_nil, logLines_catchEvents,
                    notifications_catchEvents, logLines, notifications,
                    catchEvents, console_error]

/-! ### Claim C2 -/

/-- Claim C2: every exception thrown inside the try block of an unpaused
tick is caught (the embedding of `onTick` is total: nothing propagates),
and after the call `wasm_module` is unset and `pause` is false. -/
theorem C2_catch_and_reset (s : DriverState) (inp : TickInput) (err : JsError)
    (h : thrownError s inp = some err) :
    (onTick s inp).1.wasm_module = none ∧ (onTick s inp).1.pause = false :=
  ⟨(onTick_throw s inp err h).1, (onTick_throw s inp err h).2.1⟩

/-- Concrete failing scenario for the C2 witness: a loaded module whose
`loop()` throws. -/
def c2Err : JsError := { text := "oops", stack := "st" }

def c2State : DriverState :=
  { wasm_module := some 3, pause := false, memory := [("a", "x")],
    cache := ["screeps-rs"] }

def c2Input : TickInput :=
  { bucket := 0, creeps := [], cpuJson := "cpu", freshId := 2,
    behavior := { requireError := none, initError := none,
                  setupError := none, loopError := some c2Err } }

theorem C2_catch_and_reset_witness :
    (onTick c2State c2Input).1.wasm_module = none ∧
    (onTick c2State c2Input).1.pause = false :=
  C2_catch_and_reset c2State c2Input c2Err rfl

/-! ### Claim C3 -/

/-- After any unpaused tick, the persistent memory is the original memory
restricted to keys of live creeps, in every branch of the driver. -/
theorem onTick_memory (s : DriverState) (inp : TickInput) (hp : s.pause = false) :
    (onTick s inp).1.memory =
      s.memory.filter (fun kv => inp.creeps.contains kv.1) := by
  cases hw : s.wasm_module with
  | some m =>
    cases hl : inp.behavior.loopError <;>
      simp [onTick, cleanDeadCreeps, steadyState, catchHandler, hp, hw, hl]
  | none =>
    by_cases hb : inp.bucket < 500
    · simp [onTick, cleanDeadCreeps, coldStart, hp, hw, hb]
    · cases hr : inp.behavior.requireError with
      | some e =>
        simp [onTick, cleanDeadCreeps, coldStart, catchHandler, hp, hw, hb, hr]
      | none =>
        cases hi : inp.behavior.initError with
        | some e =>
          simp [onTick, cleanDeadCreeps, coldStart, catchHandler, hp, hw, hb,
                hr, hi]
        | none =>
          cases hs : inp.behavior.setupError with
          | some e =>
            simp [onTick, cleanDeadCreeps, coldStart, catchHandler, hp, hw, hb,
                  hr, hi, hs]
          | none =>
            cases hl : inp.behavior.loopError <;>
              simp [onTick, cleanDeadCreeps, coldStart, catchHandler, hp, hw,
                    hb, hr, hi, hs, hl]

/-- Claim C3: on every unpaused tick, entries of the persistent memory
whose key is not a live creep are deleted and entries whose key is live are
kept untouched, in every branch of the driver (no module loaded, budget
gate, steady state, or failure). -/
theorem C3_memory_hygiene (s : DriverState) (inp : TickInput)
    (hp : s.pause = false) :
    (onTick s inp).1.memory =
      s.memory.filter (fun kv => inp.creeps.contains kv.1) ∧
    ∀ k v, ((k, v) ∈ (onTick s inp).1.memory ↔
      (k, v) ∈ s.memory ∧ inp.creeps.contains k = true) := by
  refine ⟨onTick_memory s inp hp, ?_⟩
  intro k v
  rw [onTick_memory s inp hp]
  simp [List.mem_filter]

/-- Concrete scenario for the C3 witness: memory has keys `a`, `b`; only
`a` is alive; the budget gate aborts loading (bucket 100, no module). -/
def c3State : DriverState :=
  { wasm_module := none, pause := false,
    memory := [("a", "1"), ("b", "2")], cache := [] }

def c3Input : TickInput :=
  { bucket := 100, creeps := ["a"], cpuJson := "", freshId := 0,
    behavior := okBehavior1 }

theorem C3_memory_hygiene_witness :
    (onTick c3State c3Input).1.memory = [("a", "1")] ∧
    ("a", "1") ∈ (onTick c3State c3Input).1.memory ∧
    ("b", "2") ∉ (onTick c3State c3Input).1.memory := by
  have h := C3_memory_hygiene c3State c3Input rfl
  refine ⟨by rw [h.1]; rfl, ?_, ?_⟩
  · exact (h.2 "a" "1").mpr ⟨by decide, by decide⟩
  · intro hmem
    have hb := (h.2 "b" "2").mp hmem
    revert hb
    decide

/-! ### Claim C4 -/

/-- Claim C4: unpaused, no module loaded, bucket strictly below 500: the
tick's trace is the cleanup deletions followed by exactly one log line (no
notification, no cache eviction, no `require` / `initialize_instance` /
`setup` / `loop` call), and `wasm_module` stays unset and the cache
untouched. -/
theorem C4_budget_gate (s : DriverState) (inp : TickInput)
    (hp : s.pause = false) (hm : s.wasm_module = none)
    (hb : inp.bucket < 500) :
    (onTick s inp).2 =
      (s.memory.filter (fun kv => !(inp.creeps.contains kv.1))).map
          (fun kv => Event.deleteMemory kv.1)
        ++ [Event.log ("we are running out of time, pausing compile!"
              ++ inp.cpuJson)] ∧
    logLines (onTick s inp).2 =
      ["we are running out of time, pausing compile!" ++ inp.cpuJson] ∧
    notifications (onTick s inp).2 = [] ∧
    moduleCalls (onTick s inp).2 = [] ∧
    (onTick s inp).1.wasm_module = none ∧
    (onTick s inp).1.cache = s.cache := by
  have htrace : (onTick s inp).2 =
      (s.memory.filter (fun kv => !(inp.creeps.contains kv.1))).map
          (fun kv => Event.deleteMemory kv.1)
        ++ [Event.log ("we are running out of time, pausing compile!"
              ++ inp.cpuJson)] := by
    simp [onTick, cleanDeadCreeps, coldStart, hp, hm, hb]
  refine ⟨htrace, ?_, ?_, ?_, ?_, ?_⟩
  · rw [htrace, logLines_append, logLines_deletes]
    rfl
  · rw [htrace, notifications_append, notifications_deletes]
    rfl
  · rw [htrace, moduleCalls_append, moduleCalls_deletes]
    rfl
  · simp [onTick, cleanDeadCreeps, coldStart, hp, hm, hb]
  · simp [onTick, cleanDeadCreeps, coldStart, hp, hm, hb]

/-- Concrete scenario for the C4 witness: bucket 499 (the spec's own
example), one dead memory entry. -/
def c4State : DriverState :=
  { wasm_module := none, pause := false, memory := [("c", "3")],
    cache := ["other"] }

def c4Input : TickInput :=
  { bucket := 499, creeps := [], cpuJson := "J", freshId := 0,
    behavior := okBehavior1 }

theorem C4_budget_gate_witness :
    logLines (onTick c4State c4Input).2 =
      ["we are running out of time, pausing compile!" ++ "J"] ∧
    notifications (onTick c4State c4Input).2 = [] ∧
    moduleCalls (onTick c4State c4Input).2 = [] ∧
    (onTick c4State c4Input).1.wasm_module = none ∧
    (onTick c4State c4Input).1.cache = c4State.cache := by
  have h := C4_budget_gate c4State c4Input rfl rfl (by decide)
  exact ⟨h.2.1, h.2.2.1, h.2.2.2.1, h.2.2.2.2.1, h.2.2.2.2.2⟩

/-! ### Claim C5 -/

/-- Claim C5: unpaused with a loaded module `m`, the only cache touch or
module-capability call of the tick is `loop()` on `m` — no
`initialize_instance`, no `setup`, no eviction, no `require` — and the
module cache is unchanged (this holds whether or not `loop()` throws). -/
theorem C5_steady_state_only_loop (s : DriverState) (inp : TickInput)
    (m : Nat) (hp : s.pause = false) (hm : s.wasm_module = some m) :
    moduleCalls (onTick s inp).2 = [Event.loopCall m] ∧
    (onTick s inp).1.cache = s.cache := by
  cases hl : inp.behavior.loopError with
  | none =>
    have htrace : (onTick s inp).2 =
        (s.memory.filter (fun kv => !(inp.creeps.contains kv.1))).map
            (fun kv => Event.deleteMemory kv.1) ++ [Event.loopCall m] := by
      simp [onTick, cleanDeadCreeps, steadyState, hp, hm, hl]
    constructor
    · rw [htrace, moduleCalls_append, moduleCalls_deletes]
      rfl
    · simp [onTick, cleanDeadCreeps, steadyState, hp, hm, hl]
  | some e =>
    have htrace : (onTick s inp).2 =
        (s.memory.filter (fun kv => !(inp.creeps.contains kv.1))).map
            (fun kv => Event.deleteMemory kv.1)
          ++ ([Event.loopCall m] ++ catchEvents e) := by
      simp [onTick, cleanDeadCreeps, steadyState, catchHandler, hp, hm, hl]
    constructor
    · rw [htrace, moduleCalls_append, moduleCalls_deletes,
          moduleCalls_append, moduleCalls_catchEvents]
      rfl
    · simp [onTick, cleanDeadCreeps, steadyState, catchHandler, hp, hm, hl]

/-- Concrete scenario for the C5 witness: module 9 loaded, well-behaved. -/
def c5State : DriverState :=
  { wasm_module := some 9, pause := false, memory := [], cache := ["screeps-rs"] }

def c5Input : TickInput :=
  { bucket := 50, creeps := [], cpuJson := "", freshId := 4,
    behavior := okBehavior1 }

theorem C5_steady_state_only_loop_witness :
    moduleCalls (onTick c5State c5Input).2 = [Event.loopCall 9] ∧
    (onTick c5State c5Input).1.cache = c5State.cache :=
  C5_steady_state_only_loop c5State c5Input 9 rfl rfl

/-! ### Claim C6 -/

/-- Claim C6: when `pause` is true, `onTick` returns the state unchanged
and an empty trace — no memory deletion, no module call, no cache
mutation, no log, no notification. -/
theorem C6_pause_short_circuit (s : DriverState) (inp : TickInput)
    (hp : s.pause = true) :
    onTick s inp = (s, []) := by
  simp [onTick, hp]

/-- Concrete scenario for the C6 witness: paused, with a loaded module,
dead memory entries, and a full bucket. -/
def c6State : DriverState :=
  { wasm_module := some 2, pause := true, memory := [("d", "z")], cache := [] }

def c6Input : TickInput :=
  { bucket := 1000, creeps := [], cpuJson := "", freshId := 5,
    behavior := okBehavior1 }

theorem C6_pause_short_circuit_witness :
    onTick c6State c6Input = (c6State, []) :=
  C6_pause_short_circuit c6State c6Input rfl

/-! ### Run-level lemmas -/

theorem runTicks_concat (s : DriverState) (l : List TickInput)
    (inp : TickInput) :
    runTicks s (l ++ [inp]) = (onTick (runTicks s l) inp).1 := by
  simp [runTicks, List.foldl_append]

/-- On every unpaused tick, the pause flag is still false afterwards (the
only assignment in the source is `pause = false` in the catch handler). -/
theorem onTick_pause_false (s : DriverState) (inp : TickInput)
    (hp : s.pause = false) :
    (onTick s inp).1.pause = false := by
  cases hw : s.wasm_module with
  | some m =>
    cases hl : inp.behavior.loopError <;>
      simp [onTick, cleanDeadCreeps, steadyState, catchHandler, hp, hw, hl]
  | none =>
    by_cases hb : inp.bucket < 500
    · simp [onTick, cleanDeadCreeps, coldStart, hp, hw, hb]
    · cases hr : inp.behavior.requireError with
      | some e =>
        simp [onTick, cleanDeadCreeps, coldStart, catchHandler, hp, hw, hb, hr]
      | none =>
        cases hi : inp.behavior.initError with
        | some e =>
          simp [onTick, cleanDeadCreeps, coldStart, catchHandler, hp, hw, hb,
                hr, hi]
        | none =>
          cases hs : inp.behavior.setupError with
          | some e =>
            simp [onTick, cleanDeadCreeps, coldStart, catchHandler, hp, hw,
                  hb, hr, hi, hs]
          | none =>
            cases hl : inp.behavior.loopError <;>
              simp [onTick, cleanDeadCreeps, coldStart, catchHandler, hp, hw,
                    hb, hr, hi, hs, hl]

/-! ### Claim C10 -/

/-- Claim C10: starting from `pause = false`, the flag stays false after
every sequence of ticks — no code path of the driver sets it to true, so
the pause short-circuit is unreachable unless external code mutates the
flag. -/
theorem C10_pause_never_set (s0 : DriverState) (inps : List TickInput)
    (h0 : s0.pause = false) :
    (runTicks s0 inps).pause = false := by
  induction inps generalizing s0 with
  | nil => simpa [runTicks] using h0
  | cons a t ih => exact ih (onTick s0 a).1 (onTick_pause_false s0 a h0)

/-- Concrete scenario for the C10 witness: a successful cold start followed
by a tick whose `loop()` throws (exercising the catch handler's
`pause = false` reset). -/
def c10Err : JsError := { text := "t", stack := "s" }

def c10State : DriverState :=
  { wasm_module := none, pause := false, memory := [], cache := [] }

def c10Inputs : List TickInput :=
  [{ bucket := 900, creeps := [], cpuJson := "", freshId := 1,
     behavior := { requireError := none, initError := none,
                   setupError := none, loopError := none } },
   { bucket := 900, creeps := [], cpuJson := "", freshId := 2,
     behavior := { requireError := none, initError := none,
                   setupError := none, loopError := some c10Err } }]

theorem C10_pause_never_set_witness :
    (runTicks c10State c10Inputs).pause = false :=
  C10_pause_never_set c10State c10Inputs rfl

/-! ### Claim C7 -/

/-- If a tick ends with a module loaded, then either it was already loaded
before the tick, or this tick performed a fully successful cold start
(unpaused, bucket at least 500, and `require`, `initialize_instance`,
`setup`, `loop` all returned normally) and the instance is the fresh
one. -/
theorem onTick_wasm_some (s : DriverState) (inp : TickInput) (n : Nat)
    (h : (onTick s inp).1.wasm_module = some n) :
    s.wasm_module = some n ∨
    (s.pause = false ∧ s.wasm_module = none ∧ 500 ≤ inp.bucket ∧
     inp.behavior.requireError = none ∧ inp.behavior.initError = none ∧
     inp.behavior.setupError = none ∧ inp.behavior.loopError = none ∧
     n = inp.freshId) := by
  by_cases hp : s.pause
  · left
    simpa [onTick, hp] using h
  · replace hp : s.pause = false := by simpa using hp
    cases hw : s.wasm_module with
    | some m =>
      cases hl : inp.behavior.loopError with
      | none =>
        left
        have hmn : m = n := by
          simpa [onTick, cleanDeadCreeps, steadyState, hp, hw, hl] using h
        rw [hmn]
      | some e =>
        exact absurd h (by
          simp [onTick, cleanDeadCreeps, steadyState, catchHandler, hp, hw, hl])
    | none =>
      by_cases hb : inp.bucket < 500
      · exact absurd h (by simp [onTick, cleanDeadCreeps, coldStart, hp, hw, hb])
      · cases hr : inp.behavior.requireError with
        | some e =>
          exact absurd h (by
            simp [onTick, cleanDeadCreeps, coldStart, catchHandler, hp, hw, hb, hr])
        | none =>
          cases hi : inp.behavior.initError with
          | some e =>
            exact absurd h (by
              simp [onTick, cleanDeadCreeps, coldStart, catchHandler, hp, hw,
                    hb, hr, hi])
          | none =>
            cases hs : inp.behavior.setupError with
            | some e =>
              exact absurd h (by
                simp [onTick, cleanDeadCreeps, coldStart, catchHandler, hp, hw,
                      hb, hr, hi, hs])
            | none =>
              cases hl : inp.behavior.loopError with
              | some e =>
                exact absurd h (by
                  simp [onTick, cleanDeadCreeps, coldStart, catchHandler, hp,
                        hw, hb, hr, hi, hs, hl])
              | none =>
                right
                have hn : inp.freshId = n := by
                  simpa [onTick, cleanDeadCreeps, coldStart, hp, hw, hb, hr,
                         hi, hs, hl] using h
                exact ⟨hp, rfl, not_lt.mp hb, rfl, rfl, rfl, rfl, hn.symm⟩

/-- Claim C7: in any run from an unloaded state, after every completed
tick `wasm_module` is either unset, or holds the fresh instance produced
by some tick of the run that performed a fully successful cold start — in
particular an instance on which `initialize_instance` and then `setup`
completed without throwing.  No inter-tick state holds a
partly-initialized instance. -/
theorem C7_full_init_invariant (s0 : DriverState) (inps : List TickInput)
    (h0 : s0.wasm_module = none) :
    (runTicks s0 inps).wasm_module = none ∨
    ∃ pre inp post, inps = pre ++ inp :: post ∧
      (runTicks s0 pre).pause = false ∧
      (runTicks s0 pre).wasm_module = none ∧
      500 ≤ inp.bucket ∧
      inp.behavior.requireError = none ∧ inp.behavior.initError = none ∧
      inp.behavior.setupError = none ∧ inp.behavior.loopError = none ∧
      (runTicks s0 inps).wasm_module = some inp.freshId := by
  induction inps using List.reverseRecOn with
  | nil =>
    left
    simpa [runTicks] using h0
  | append_singleton l inp ih =>
    cases hres : (onTick (runTicks s0 l) inp).1.wasm_module with
    | none =>
      left
      rw [runTicks_concat]
      exact hres
    | some n =>
      rcases onTick_wasm_some _ inp n hres with hprev | hcold
      · rcases ih with hnone | ⟨pre, inp0, post, heq, h1, h2, h3, h4, h5, h6, h7, h8⟩
        · rw [hnone] at hprev
          cases hprev
        · right
          refine ⟨pre, inp0, post ++ [inp], by rw [heq]; simp, h1, h2, h3,
                  h4, h5, h6, h7, ?_⟩
          rw [runTicks_concat, hres]
          exact hprev.symm.trans h8
      · right
        refine ⟨l, inp, [], rfl, hcold.1, hcold.2.1, hcold.2.2.1,
                hcold.2.2.2.1, hcold.2.2.2.2.1, hcold.2.2.2.2.2.1,
                hcold.2.2.2.2.2.2.1, ?_⟩
        rw [runTicks_concat, hres, hcold.2.2.2.2.2.2.2]

/-- Concrete scenario for the C7 witness: one fully successful cold-start
tick from the initial state. -/
def c7State : DriverState :=
  { wasm_module := none, pause := false, memory := [], cache := [] }

def c7Inputs : List TickInput :=
  [{ bucket := 600, creeps := [], cpuJson := "", freshId := 3,
     behavior := { requireError := none, initError := none,
                   setupError := none, loopError := none } }]

theorem C7_full_init_invariant_witness :
    (runTicks c7State c7Inputs).wasm_module = none ∨
    ∃ pre inp post, c7Inputs = pre ++ inp :: post ∧
      (runTicks c7State pre).pause = false ∧
      (runTicks c7State pre).wasm_module = none ∧
      500 ≤ inp.bucket ∧
      inp.behavior.requireError = none ∧ inp.behavior.initError = none ∧
      inp.behavior.setupError = none ∧ inp.behavior.loopError = none ∧
      (runTicks c7State c7Inputs).wasm_module = some inp.freshId :=
  C7_full_init_invariant c7State c7Inputs rfl

/-! ### Claim C8 (corrected) -/

/-- Concrete failing scenario for C8: `setup()` throws "boom" during a
cold start with a full bucket. -/
def c8Err : JsError := { text := "boom", stack := "boomstack" }

def c8State : DriverState :=
  { wasm_module := none, pause := false, memory := [], cache := [] }

def c8Input : TickInput :=
  { bucket := 1000, creeps := [], cpuJson := "cpu", freshId := 1,
    behavior := { requireError := none, initError := none,
                  setupError := some c8Err, loopError := none } }

/-- Claim C8 as stated is false: the failure handler calls `console_error`
three times, and each `console_error` call sends a `Game.notify` message —
so three notifications go out for one caught exception, not exactly
one. -/
theorem C8_counterexample :
    notifications (onTick c8State c8Input).2 =
      ["resetting VM next tick.", "boom", "boomstack"] ∧
    (notifications (onTick c8State c8Input).2).length ≠ 1 := by
  have h : notifications (onTick c8State c8Input).2 =
      ["resetting VM next tick.", "boom", "boomstack"] := rfl
  refine ⟨h, ?_⟩
  rw [h]
  decide

/-- Claim C8 as amended: for every exception caught by the failure
handler, exactly three messages are sent through the notification channel
— the fixed reset line, the error's text, and the error's stack — and in
particular one of them is exactly the error's text. -/
theorem C8_three_notifications (s : DriverState) (inp : TickInput)
    (err : JsError) (h : thrownError s inp = some err) :
    notifications (onTick s inp).2 =
      ["resetting VM next tick.", err.text, err.stack] ∧
    err.text ∈ notifications (onTick s inp).2 := by
  refine ⟨(onTick_throw s inp err h).2.2.2, ?_⟩
  rw [(onTick_throw s inp err h).2.2.2]
  simp

theorem C8_three_notifications_witness :
    notifications (onTick c8State c8Input).2 =
      ["resetting VM next tick.", c8Err.text, c8Err.stack] ∧
    c8Err.text ∈ notifications (onTick c8State c8Input).2 :=
  C8_three_notifications c8State c8Input c8Err rfl

/-! ### Claim C9 (corrected) -/

/-- Concrete failing scenario for C9: `setup()` throws "boom" (the spec's
own scenario). -/
def c9Err : JsError := { text := "boom", stack := "boomstack" }

def c9State : DriverState :=
  { wasm_module := none, pause := false, memory := [], cache := [] }

def c9Input : TickInput :=
  { bucket := 1000, creeps := [], cpuJson := "cpu", freshId := 1,
    behavior := { requireError := none, initError := none,
                  setupError := some c9Err, loopError := none } }

/-- Claim C9 as stated is false: the fixed diagnostic line of the failure
handler is "resetting VM next tick.", and no log line of this failing tick
contains "resetting next tick" as a (contiguous) substring — the actual
text has "VM " between "resetting" and "next tick". -/
theorem C9_counterexample :
    logLines (onTick c9State c9Input).2 =
      ["resetting VM next tick.", "boom", "boomstack"] ∧
    ((logLines (onTick c9State c9Input).2).all
        (fun l => !(containsStr l "resetting next tick"))) = true := by
  constructor
  · rfl
  · decide

/-- Claim C9 as amended: for every exception caught by the failure
handler, the logging channel receives a fixed diagnostic line whose text
is "resetting VM next tick." (it is the first log line of the tick). -/
theorem C9_reset_log_line (s : DriverState) (inp : TickInput)
    (err : JsError) (h : thrownError s inp = some err) :
    "resetting VM next tick." ∈ logLines (onTick s inp).2 ∧
    (logLines (onTick s inp).2).head? = some "resetting VM next tick." := by
  rw [(onTick_throw s inp err h).2.2.1]
  exact ⟨by simp, rfl⟩

theorem C9_reset_log_line_witness :
    "resetting VM next tick." ∈ logLines (onTick c9State c9Input).2 ∧
    (logLines (onTick c9State c9Input).2).head? =
      some "resetting VM next tick." :=
  C9_reset_log_line c9State c9Input c9Err rfl
